import Mathlib

/-!
Shallow embedding of `python/tk_multi_workfiles/actions/new_file_action.py`
(class `NewFileAction`).  The surrounding framework calls
(`FileAction.create_folders_if_needed`, `Context.as_template_fields`,
`reset_current_scene`, `prepare_new_scene`, `FileAction.change_context`,
`app.log_metric`, Qt dialogs, logging) are external collaborators: their
observable outcomes are supplied through an `Oracles` record, and each call
the method makes is recorded as an `Event` in an ordered trace.  A Python
exception escaping a collaborator is an `Exn` value; the method itself
returns `Except Exn (Bool × List Event)`, where `Except.error` would mean an
exception propagating out of `execute` to its caller.
-/

namespace Workfiles

/-- Truthiness model of an sgtk `Context`: `entity` and `project` record
whether those attributes are truthy; `id` distinguishes contexts so that
Python `==` on contexts is structural equality here. -/
structure Context where
  entity : Bool
  project : Bool
  id : Nat
deriving DecidableEq, Repr

/-- Placeholder for an sgtk template object; only identity matters. -/
structure Template where
  id : Nat
deriving DecidableEq, Repr

/-- The `WorkArea` instance handed to `NewFileAction.__init__`: the fields
`execute` and `can_do_new_file` read.  `none` models Python `None`. -/
structure Environment where
  context : Option Context
  work_template : Option Template
  work_area_template : Option Template
deriving DecidableEq, Repr

/-- A Python exception escaping a collaborator: either a `TankError` or any
other `Exception` subclass; `msg` is `str(e)`. -/
inductive Exn where
  | tank (msg : String)
  | other (msg : String)
deriving DecidableEq, Repr

/-- `str(e)` of an exception. -/
def Exn.str : Exn → String
  | .tank m => m
  | .other m => m

/-- One observable call made by `execute`, in program order. -/
inductive Event where
  | createFolders
  | asTemplateFields
  | logException (msg : String)
  | resetScene
  | logDebug (msg : String)
  | prepareNew
  | changeContext
  | showDialog (parent : Nat) (title : String) (text : String)
      (detail : Option String)
  | logMetric (name : String)
deriving DecidableEq, Repr

/-- Outcomes of the external collaborators for one run of `execute`:
`none` / `Except.ok` means the call returns normally, `some e` /
`Except.error e` means it raises `e`.  `resetScene` additionally returns the
truthiness of `reset_current_scene`'s result on success. -/
structure Oracles where
  createFolders : Option Exn
  asTemplateFields : Option Exn
  resetScene : Except Exn Bool
  prepareNew : Option Exn
  changeContext : Option Exn
  logMetric : Option Exn
deriving Repr

/-- External constant (`from sgtk import support_url`); its exact value lives
outside this repository, only its occurrence inside messages matters. -/
def support_url : String := "https://knowledge.autodesk.com/contact-support"

/-- Message passed to `log_exception` in the inner `except TankError` clause. -/
def resolveLogMsg : String :=
  "Unable to resolve template fields after folder creation!"

/-- Message of the replacement `TankError` raised by the inner handler, the
format string of the source with `url` and `error` interpolated. -/
def innerTankMsg (error : String) : String :=
  "Unable to resolve template fields after folder creation!  This could mean " ++
  "there is a mismatch between your folder schema and templates. Please " ++
  "contact us via " ++ support_url ++ " if you need help fixing this.\n\n" ++ error

/-- Message passed to `log_debug` when `reset_current_scene` returns falsy. -/
def resetFailMsg : String :=
  "Unable to perform New Scene operation after failing to reset scene!"

/-- Result of the body of the outer `try` in `execute`: an early
`return False` (failed scene reset), normal completion, or an exception
escaping the body into the outer `except Exception` handler.  Each carries
the trace of calls made so far. -/
inductive BodyResult where
  | earlyFalse (evs : List Event)
  | success (evs : List Event)
  | raised (evs : List Event) (e : Exn)
deriving DecidableEq, Repr

namespace NewFileAction

/-- `NewFileAction.can_do_new_file`: truthiness of
`env.context is not None and (env.context.entity or env.context.project)
and env.work_area_template is not None`. -/
def can_do_new_file (env : Environment) : Bool :=
  match env.context with
  | none => false
  | some c => (c.entity || c.project) && env.work_area_template.isSome

/-- `self.label`, set by `Action.__init__(self, "New File")`. -/
def label : String := "New File"

/-- `error_title = "Failed to complete '{}' action".format(self.label)`. -/
def errorTitle : String :=
  "Failed to complete \x27" ++ label ++ "\x27 action"

/-- Main text of the message box: `error_title` followed by a blank line and
the first line of `str(e)` when that first line is non-empty. -/
def dialogText (msg : String) : String :=
  let strs := msg.splitOn "\n"
  if strs.headI ≠ "" then errorTitle ++ "\n\n" ++ strs.headI else errorTitle

/-- Detailed text of the message box: the remaining lines of `str(e)` joined
with single spaces, set only when `error_strs[1:]` is non-empty. -/
def dialogDetail (msg : String) : Option String :=
  let strs := msg.splitOn "\n"
  if strs.tail = [] then none else some (String.intercalate " " strs.tail)

/-- The body of the outer `try` of `execute`: folder creation and
template-field validation guarded by the inner `except TankError`, then
scene reset, scene preparation, and the conditional context change. -/
def executeBody (env : Environment) (appCtx : Option Context)
    (o : Oracles) : BodyResult :=
  match o.createFolders with
  | some (Exn.tank m) =>
      .raised [Event.createFolders, Event.logException resolveLogMsg]
        (Exn.tank (innerTankMsg m))
  | some (Exn.other m) =>
      .raised [Event.createFolders] (Exn.other m)
  | none =>
    match o.asTemplateFields with
    | some (Exn.tank m) =>
        .raised
          [Event.createFolders, Event.asTemplateFields,
           Event.logException resolveLogMsg]
          (Exn.tank (innerTankMsg m))
    | some (Exn.other m) =>
        .raised [Event.createFolders, Event.asTemplateFields] (Exn.other m)
    | none =>
      match o.resetScene with
      | .error e =>
          .raised [Event.createFolders, Event.asTemplateFields,
                   Event.resetScene] e
      | .ok false =>
          .earlyFalse [Event.createFolders, Event.asTemplateFields,
                       Event.resetScene, Event.logDebug resetFailMsg]
      | .ok true =>
        match o.prepareNew with
        | some e =>
            .raised [Event.createFolders, Event.asTemplateFields,
                     Event.resetScene, Event.prepareNew] e
        | none =>
          if env.context = appCtx then
            .success [Event.createFolders, Event.asTemplateFields,
                      Event.resetScene, Event.prepareNew]
          else
            match o.changeContext with
            | some e =>
                .raised [Event.createFolders, Event.asTemplateFields,
                         Event.resetScene, Event.prepareNew,
                         Event.changeContext] e
            | none =>
                .success [Event.createFolders, Event.asTemplateFields,
                          Event.resetScene, Event.prepareNew,
                          Event.changeContext]

/-- `NewFileAction.execute(self, parent_ui)`.  `appCtx` is
`self._app.context`, `parentUi` identifies `parent_ui`, `o` fixes the
collaborators' outcomes.  `Except.error` would model an exception
propagating out of `execute`. -/
def execute (env : Environment) (appCtx : Option Context) (parentUi : Nat)
    (o : Oracles) : Except Exn (Bool × List Event) :=
  if can_do_new_file env = true then
    match executeBody env appCtx o with
    | .earlyFalse evs => .ok (false, evs)
    | .raised evs e =>
        .ok (false,
          evs ++
            [Event.showDialog parentUi errorTitle (dialogText (Exn.str e))
               (dialogDetail (Exn.str e)),
             Event.logException errorTitle])
    | .success evs =>
        .ok (true, evs ++ [Event.logMetric "New Workfile"])
  else
    .ok (false, [])

/-- The returned value and trace of `execute` (total by C9 below). -/
def run (env : Environment) (appCtx : Option Context) (parentUi : Nat)
    (o : Oracles) : Bool × List Event :=
  match execute env appCtx parentUi o with
  | .ok r => r
  | .error _ => (false, [])

end NewFileAction

end Workfiles

namespace Workfiles

open NewFileAction

/-- `execute` never produces `Except.error`; it always yields `run`. -/
lemma execute_eq_ok_run (env : Environment) (appCtx : Option Context)
    (parentUi : Nat) (o : Oracles) :
    execute env appCtx parentUi o = Except.ok (run env appCtx parentUi o) := by
  unfold NewFileAction.run NewFileAction.execute
  by_cases h : can_do_new_file env = true
  · cases hB : executeBody env appCtx o
    all_goals simp [h]
  · simp [h]

/-- Claim C9: for every environment, application context, parent widget and
collaborator behaviour, `execute` terminates with an ordinary boolean result
and never propagates an exception raised by any orchestration step to its
caller. -/
theorem C9_execute_total_no_propagation (env : Environment)
    (appCtx : Option Context) (parentUi : Nat) (o : Oracles) :
    ∃ r : Bool × List Event, execute env appCtx parentUi o = Except.ok r :=
  ⟨run env appCtx parentUi o, execute_eq_ok_run env appCtx parentUi o⟩

/-- Claim C2: when `can_do_new_file` is false, `execute` returns `False`
immediately with no side effect at all: an empty trace. -/
theorem C2_invalid_env_returns_false_no_effects (env : Environment)
    (appCtx : Option Context) (parentUi : Nat) (o : Oracles)
    (h : can_do_new_file env = false) :
    run env appCtx parentUi o = (false, []) := by
  unfold NewFileAction.run NewFileAction.execute
  simp [h]

theorem C2_invalid_env_returns_false_no_effects_witness :
    run ⟨none, none, none⟩ none 0
      ⟨none, none, Except.ok true, none, none, none⟩ = (false, []) :=
  C2_invalid_env_returns_false_no_effects ⟨none, none, none⟩ none 0
    ⟨none, none, Except.ok true, none, none, none⟩ rfl

/-- Claim C3: `can_do_new_file env` is truthy exactly when `env.context` is
not `None`, at least one of `context.entity` / `context.project` is truthy,
and `env.work_area_template` is not `None`. -/
theorem C3_can_do_new_file_iff (env : Environment) :
    can_do_new_file env = true ↔
      ∃ c, env.context = some c ∧ (c.entity = true ∨ c.project = true) ∧
        env.work_area_template ≠ none := by
  unfold NewFileAction.can_do_new_file
  rcases h : env.context with _ | c <;>
    simp [Option.isSome_iff_ne_none, Bool.or_eq_true, and_assoc]

end Workfiles

namespace Workfiles

open NewFileAction

/-- Sample context used by concrete witnesses. -/
def ctxA : Context := ⟨true, false, 0⟩

/-- Sample template used by concrete witnesses. -/
def tmplA : Template := ⟨0⟩

/-- Sample valid environment used by concrete witnesses. -/
def envA : Environment := ⟨some ctxA, some tmplA, some tmplA⟩

/-- Collaborator outcomes where every call succeeds. -/
def oracleOk : Oracles := ⟨none, none, Except.ok true, none, none, none⟩

/-- When the body of the outer try raises, `run` returns `False` with the
dialog and the final `log_exception` appended to the trace. -/
lemma run_raised (env : Environment) (appCtx : Option Context)
    (parentUi : Nat) (o : Oracles) (evs : List Event) (e : Exn)
    (h : can_do_new_file env = true)
    (hB : executeBody env appCtx o = BodyResult.raised evs e) :
    run env appCtx parentUi o =
      (false, evs ++
        [Event.showDialog parentUi errorTitle (dialogText (Exn.str e))
           (dialogDetail (Exn.str e)),
         Event.logException errorTitle]) := by
  unfold NewFileAction.run NewFileAction.execute
  simp [h, hB]

/-- When the body completes normally, `run` returns `True` with the metrics
call appended to the trace. -/
lemma run_success (env : Environment) (appCtx : Option Context)
    (parentUi : Nat) (o : Oracles) (evs : List Event)
    (h : can_do_new_file env = true)
    (hB : executeBody env appCtx o = BodyResult.success evs) :
    run env appCtx parentUi o =
      (true, evs ++ [Event.logMetric "New Workfile"]) := by
  unfold NewFileAction.run NewFileAction.execute
  simp [h, hB]

/-- `run` never reads the metrics oracle: its outcome changes nothing. -/
lemma run_ignores_logMetric (env : Environment) (appCtx : Option Context)
    (parentUi : Nat) (o : Oracles) (lm : Option Exn) :
    run env appCtx parentUi { o with logMetric := lm } =
      run env appCtx parentUi o := by
  obtain ⟨cf, atf, rs, pn, cc, lm0⟩ := o
  rfl

/-- Claim C1: every exception raised inside the body of `execute` (folder
creation, template-field validation, scene reset, new-scene preparation, or
context change) leads to a message box parented to `parent_ui` and a
`False` return, never to a propagated exception. -/
theorem C1_exception_shows_dialog_and_returns_false (env : Environment)
    (appCtx : Option Context) (parentUi : Nat) (o : Oracles)
    (evs : List Event) (e : Exn)
    (h : can_do_new_file env = true)
    (hB : executeBody env appCtx o = BodyResult.raised evs e) :
    (run env appCtx parentUi o).1 = false ∧
      Event.showDialog parentUi errorTitle (dialogText (Exn.str e))
        (dialogDetail (Exn.str e)) ∈ (run env appCtx parentUi o).2 := by
  rw [run_raised env appCtx parentUi o evs e h hB]
  simp

/-- Oracle where folder creation raises a plain exception. -/
def oracleC1 : Oracles :=
  ⟨some (Exn.other "boom"), none, Except.ok true, none, none, none⟩

theorem C1_exception_shows_dialog_and_returns_false_witness :
    (run envA (some ctxA) 7 oracleC1).1 = false ∧
      Event.showDialog 7 errorTitle (dialogText (Exn.str (Exn.other "boom")))
        (dialogDetail (Exn.str (Exn.other "boom")))
        ∈ (run envA (some ctxA) 7 oracleC1).2 :=
  C1_exception_shows_dialog_and_returns_false envA (some ctxA) 7 oracleC1
    [Event.createFolders] (Exn.other "boom") rfl rfl

/-- Claim C4: on every run that returns `True`, the side-effecting steps
happen exactly in the order folder creation, template-field validation,
scene reset, scene preparation, optional context change, metrics. -/
theorem C4_success_trace_order (env : Environment) (appCtx : Option Context)
    (parentUi : Nat) (o : Oracles)
    (h : (run env appCtx parentUi o).1 = true) :
    (run env appCtx parentUi o).2 =
      [Event.createFolders, Event.asTemplateFields, Event.resetScene,
       Event.prepareNew] ++
      (if env.context = appCtx then [] else [Event.changeContext]) ++
      [Event.logMetric "New Workfile"] := by
  obtain ⟨cf, atf, rs, pn, cc, lm⟩ := o
  unfold NewFileAction.run NewFileAction.execute NewFileAction.executeBody at *
  by_cases hcd : can_do_new_file env = true <;>
  by_cases hc : env.context = appCtx <;>
  rcases cf with _ | (m | m) <;>
  rcases atf with _ | (m | m) <;>
  rcases rs with e | (_ | _) <;>
  rcases pn with _ | p <;>
  rcases cc with _ | c <;>
  simp_all

theorem C4_success_trace_order_witness :
    (run envA (some ctxA) 0 oracleOk).2 =
      [Event.createFolders, Event.asTemplateFields, Event.resetScene,
       Event.prepareNew] ++
      (if envA.context = some ctxA then [] else [Event.changeContext]) ++
      [Event.logMetric "New Workfile"] :=
  C4_success_trace_order envA (some ctxA) 0 oracleOk rfl

/-- Claim C5: `FileAction.change_context` is called exactly when the run
reaches the end of the success path (validation passed, folder creation and
template-field validation succeeded, scene reset returned truthy, scene
preparation did not raise) and the environment's context differs from the
application's current context. -/
theorem C5_change_context_iff (env : Environment) (appCtx : Option Context)
    (parentUi : Nat) (o : Oracles) :
    Event.changeContext ∈ (run env appCtx parentUi o).2 ↔
      (can_do_new_file env = true ∧ o.createFolders = none ∧
       o.asTemplateFields = none ∧ o.resetScene = Except.ok true ∧
       o.prepareNew = none ∧ ¬env.context = appCtx) := by
  obtain ⟨cf, atf, rs, pn, cc, lm⟩ := o
  unfold NewFileAction.run NewFileAction.execute NewFileAction.executeBody
  by_cases hcd : can_do_new_file env = true <;>
  by_cases hc : env.context = appCtx <;>
  rcases cf with _ | (m | m) <;>
  rcases atf with _ | (m | m) <;>
  rcases rs with e | (_ | _) <;>
  rcases pn with _ | p <;>
  rcases cc with _ | c <;>
  simp_all

/-- Claim C6: a `TankError` from folder creation or template-field
validation is replaced by a new `TankError` whose message holds the fixed
explanation, the support URL and the original message, with the original
logged before the new error leaves the inner handler. -/
theorem C6_tank_error_wrapped (env : Environment) (appCtx : Option Context)
    (o : Oracles) (m : String)
    (h : o.createFolders = some (Exn.tank m) ∨
         (o.createFolders = none ∧ o.asTemplateFields = some (Exn.tank m))) :
    ∃ evs, executeBody env appCtx o =
        BodyResult.raised evs (Exn.tank (innerTankMsg m)) ∧
      Event.logException resolveLogMsg ∈ evs ∧
      ∃ a b, innerTankMsg m = a ++ (support_url ++ (b ++ m)) := by
  have hmsg : ∃ a b, innerTankMsg m = a ++ (support_url ++ (b ++ m)) :=
    ⟨"Unable to resolve template fields after folder creation!  This could mean " ++
       "there is a mismatch between your folder schema and templates. Please " ++
       "contact us via ",
     " if you need help fixing this.\n\n",
     by simp [innerTankMsg, ← String.append_assoc]⟩
  rcases h with h | ⟨h1, h2⟩
  · refine ⟨[Event.createFolders, Event.logException resolveLogMsg],
      ?_, by simp, hmsg⟩
    unfold NewFileAction.executeBody
    rw [h]
  · refine ⟨[Event.createFolders, Event.asTemplateFields,
      Event.logException resolveLogMsg], ?_, by simp, hmsg⟩
    unfold NewFileAction.executeBody
    rw [h1, h2]

/-- Oracle where folder creation raises a `TankError`. -/
def oracleC6 : Oracles :=
  ⟨some (Exn.tank "boom"), none, Except.ok true, none, none, none⟩

theorem C6_tank_error_wrapped_witness :
    ∃ evs, executeBody envA (some ctxA) oracleC6 =
        BodyResult.raised evs (Exn.tank (innerTankMsg "boom")) ∧
      Event.logException resolveLogMsg ∈ evs ∧
      ∃ a b, innerTankMsg "boom" = a ++ (support_url ++ (b ++ "boom")) :=
  C6_tank_error_wrapped envA (some ctxA) oracleC6 "boom" (Or.inl rfl)

/-- Claim C7: when `reset_current_scene` returns a falsy value, `execute`
returns `False` and neither `prepare_new_scene` nor
`FileAction.change_context` is ever called. -/
theorem C7_reset_falsy_stops_run (env : Environment)
    (appCtx : Option Context) (parentUi : Nat) (o : Oracles)
    (h : o.resetScene = Except.ok false) :
    (run env appCtx parentUi o).1 = false ∧
    Event.prepareNew ∉ (run env appCtx parentUi o).2 ∧
    Event.changeContext ∉ (run env appCtx parentUi o).2 := by
  obtain ⟨cf, atf, rs, pn, cc, lm⟩ := o
  unfold NewFileAction.run NewFileAction.execute NewFileAction.executeBody at *
  by_cases hcd : can_do_new_file env = true <;>
  by_cases hc : env.context = appCtx <;>
  rcases cf with _ | (m | m) <;>
  rcases atf with _ | (m | m) <;>
  simp_all

/-- Oracle where the scene reset reports failure. -/
def oracleC7 : Oracles := ⟨none, none, Except.ok false, none, none, none⟩

theorem C7_reset_falsy_stops_run_witness :
    (run envA (some ctxA) 2 oracleC7).1 = false ∧
    Event.prepareNew ∉ (run envA (some ctxA) 2 oracleC7).2 ∧
    Event.changeContext ∉ (run envA (some ctxA) 2 oracleC7).2 :=
  C7_reset_falsy_stops_run envA (some ctxA) 2 oracleC7 rfl

/-- Claim C8: when every step up to and including the optional context
change succeeds, `execute` returns `True`, the metrics outcome (including
any raised exception) never changes the result, and no dialog is shown. -/
theorem C8_metrics_failure_ignored (env : Environment)
    (appCtx : Option Context) (parentUi : Nat) (o : Oracles)
    (h1 : can_do_new_file env = true) (h2 : o.createFolders = none)
    (h3 : o.asTemplateFields = none) (h4 : o.resetScene = Except.ok true)
    (h5 : o.prepareNew = none)
    (h6 : env.context = appCtx ∨ o.changeContext = none) :
    (run env appCtx parentUi o).1 = true ∧
    (∀ lm, run env appCtx parentUi { o with logMetric := lm } =
      run env appCtx parentUi o) ∧
    (∀ p t x d, Event.showDialog p t x d ∉ (run env appCtx parentUi o).2) := by
  have hB : executeBody env appCtx o = BodyResult.success
      ([Event.createFolders, Event.asTemplateFields, Event.resetScene,
        Event.prepareNew] ++
       (if env.context = appCtx then [] else [Event.changeContext])) := by
    unfold NewFileAction.executeBody
    rw [h2, h3, h4, h5]
    by_cases hc : env.context = appCtx
    · simp [hc]
    · rcases h6 with h6 | h6
      · exact absurd h6 hc
      · rw [h6]
        simp [hc]
  refine ⟨?_, fun lm => run_ignores_logMetric env appCtx parentUi o lm, ?_⟩
  · rw [run_success env appCtx parentUi o _ h1 hB]
  · intro p t x d
    rw [run_success env appCtx parentUi o _ h1 hB]
    by_cases hc : env.context = appCtx <;> simp [hc]

theorem C8_metrics_failure_ignored_witness :
    (run envA (some ctxA) 5 oracleOk).1 = true ∧
    (∀ lm, run envA (some ctxA) 5 { oracleOk with logMetric := lm } =
      run envA (some ctxA) 5 oracleOk) ∧
    (∀ p t x d,
      Event.showDialog p t x d ∉ (run envA (some ctxA) 5 oracleOk).2) :=
  C8_metrics_failure_ignored envA (some ctxA) 5 oracleOk rfl rfl rfl rfl rfl
    (Or.inl rfl)

/-- Claim C10: the dialog's main text is the error title, followed by the
first line of the exception message only when that line is non-empty, and
the remaining lines, when any exist, are joined with single spaces into the
detailed text. -/
theorem C10_dialog_text_structure (env : Environment)
    (appCtx : Option Context) (parentUi : Nat) (o : Oracles)
    (evs : List Event) (e : Exn)
    (h : can_do_new_file env = true)
    (hB : executeBody env appCtx o = BodyResult.raised evs e) :
    ∃ txt det,
      Event.showDialog parentUi errorTitle txt det
        ∈ (run env appCtx parentUi o).2 ∧
      (((Exn.str e).splitOn "\n").headI = "" → txt = errorTitle) ∧
      (¬((Exn.str e).splitOn "\n").headI = "" →
        txt = errorTitle ++ "\n\n" ++ ((Exn.str e).splitOn "\n").headI) ∧
      (((Exn.str e).splitOn "\n").tail = [] → det = none) ∧
      (¬((Exn.str e).splitOn "\n").tail = [] →
        det = some (String.intercalate " "
          (((Exn.str e).splitOn "\n").tail))) := by
  refine ⟨dialogText (Exn.str e), dialogDetail (Exn.str e), ?_, ?_, ?_, ?_, ?_⟩
  · rw [run_raised env appCtx parentUi o evs e h hB]
    simp
  · intro h0
    simp [dialogText, h0]
  · intro h0
    simp [dialogText, h0]
  · intro h0
    simp [dialogDetail, h0]
  · intro h0
    simp [dialogDetail, h0]

/-- Oracle where scene preparation raises a two-line error message. -/
def oracleC10 : Oracles :=
  ⟨none, none, Except.ok true, some (Exn.other "line1\nline2"), none, none⟩

theorem C10_dialog_text_structure_witness :
    ∃ txt det,
      Event.showDialog 3 errorTitle txt det
        ∈ (run envA (some ctxA) 3 oracleC10).2 ∧
      (((Exn.str (Exn.other "line1\nline2")).splitOn "\n").headI = "" →
        txt = errorTitle) ∧
      (¬((Exn.str (Exn.other "line1\nline2")).splitOn "\n").headI = "" →
        txt = errorTitle ++ "\n\n" ++
          ((Exn.str (Exn.other "line1\nline2")).splitOn "\n").headI) ∧
      (((Exn.str (Exn.other "line1\nline2")).splitOn "\n").tail = [] →
        det = none) ∧
      (¬((Exn.str (Exn.other "line1\nline2")).splitOn "\n").tail = [] →
        det = some (String.intercalate " "
          (((Exn.str (Exn.other "line1\nline2")).splitOn "\n").tail))) :=
  C10_dialog_text_structure envA (some ctxA) 3 oracleC10
    [Event.createFolders, Event.asTemplateFields, Event.resetScene,
     Event.prepareNew] (Exn.other "line1\nline2") rfl rfl

end Workfiles
